import Mathlib

/-
Verification of the go-redis facade (kimxuanhong/go-redis).

The repository has two source files:
  * `redis/Redis.go` — a thin `Client` facade over a connected Redis client,
    delegating each method to one underlying command;
  * `redis/Config.go` — a `Config` loader reading `REDIS_HOST`, `REDIS_PORT`,
    `REDIS_PASSWORD` and `REDIS_DB` from the environment with hard-coded
    defaults.

The facade itself is pure delegation, so the embedding models:
  * the remote store as a map from keys to string or list values
    (wall-clock expiry and transport faults are environment behaviour and are
    not scheduled by this model; the error taxonomy still distinguishes them);
  * the underlying client as a state with a `closed` flag (the wrapped library
    rejects commands with a "client is closed" error after `Close`);
  * every facade method of `Redis.go`, each recording the remote commands it
    issues in a trace;
  * the `encoding/json` marshal/unmarshal pair on a small universe of Go
    values (strings, integers, flat records, and a channel value on which
    `json.Marshal` fails), with a real serializer and a real total recursive
    reader, so that round trips and failure propagation are computable;
  * `Config.go` verbatim: `os.Getenv` semantics (unset reads as the empty
    string), `getEnv`, `strconv.Atoi` syntax parsing, and `NewConfig`.
-/

set_option autoImplicit false

namespace GoRedis

/-! ## Go values and the `encoding/json` model -/

/-- A primitive JSON-serializable field value: a Go string or a Go int. -/
inductive JPrim where
  | pstr (s : String)
  | pint (n : Int)
  deriving DecidableEq

/-- A Go value passed to `SetJSON` / produced by `GetJSON`: a string, an
integer, a flat struct of primitive fields, or a channel (a value on which
`json.Marshal` fails with an unsupported-type error). -/
inductive GoVal where
  | gstr (s : String)
  | gint (n : Int)
  | gobj (fields : List (String × JPrim))
  | gchan
  deriving DecidableEq

/-- Escape one character the way `encoding/json` quotes it inside a string
literal (only the quote and the backslash occur in this value universe). -/
def escapeChar (c : Char) : List Char :=
  if c = '"' ∨ c = '\\' then ['\\', c] else [c]

/-- Escape a whole string for inclusion inside JSON quotes. -/
def escapeStr (s : String) : String :=
  ⟨s.data.foldr (fun c acc => escapeChar c ++ acc) []⟩

/-- Wrap a string in JSON quotes, escaping its content. -/
def quoteStr (s : String) : String :=
  "\"" ++ escapeStr s ++ "\""

/-- Serialize one primitive field value. -/
def marshalPrim : JPrim → String
  | .pstr s => quoteStr s
  | .pint n => toString n

/-- Model of `json.Marshal`: serializes strings, integers and flat structs,
and fails on a channel the way the Go library does. -/
def jsonMarshal : GoVal → Except String String
  | .gchan => .error "json: unsupported type: chan"
  | .gstr s => .ok (quoteStr s)
  | .gint n => .ok (toString n)
  | .gobj fs =>
    .ok ("\x7b" ++
      String.intercalate "," (fs.map fun p => quoteStr p.1 ++ ":" ++ marshalPrim p.2) ++
      "\x7d")

/-- Split a leading run of decimal digits off a character list. -/
def takeDigits : List Char → List Char × List Char
  | [] => ([], [])
  | c :: cs =>
    if c.isDigit then
      let p := takeDigits cs
      (c :: p.1, p.2)
    else ([], c :: cs)

/-- Numeric value of a digit run. -/
def digitsVal (ds : List Char) : Nat :=
  ds.foldl (fun a c => a * 10 + (c.toNat - 48)) 0

/-- Read a signed decimal integer from the front of a character list,
returning the value and the unconsumed rest; fails when no digit is present.
Used both for JSON numbers and for `strconv.Atoi` (which accepts a leading
sign). -/
def readInt (cs : List Char) : Option (Int × List Char) :=
  let core : Bool → List Char → Option (Int × List Char) := fun neg rest =>
    match takeDigits rest with
    | ([], _) => none
    | (ds, rest2) =>
      some (if neg then -(digitsVal ds : Int) else (digitsVal ds : Int), rest2)
  match cs with
  | '-' :: rest => core true rest
  | '+' :: rest => core false rest
  | _ => core false cs

/-- Read the body of a JSON string (after the opening quote), undoing the
escapes `escapeChar` produces; fails at end of input before the closing
quote or on an unknown escape. -/
def readStrAux : List Char → List Char → Option (String × List Char)
  | _, [] => none
  | acc, c :: cs =>
    if c = '"' then some (⟨acc.reverse⟩, cs)
    else if c = '\\' then
      match cs with
      | [] => none
      | e :: cs2 => if e = '"' ∨ e = '\\' then readStrAux (e :: acc) cs2 else none
    else readStrAux (c :: acc) cs

/-- Read a quoted JSON string from the front of a character list. -/
def readStr (cs : List Char) : Option (String × List Char) :=
  match cs with
  | '"' :: rest => readStrAux [] rest
  | _ => none

/-- Read one primitive JSON value (string or integer). -/
def readPrim (cs : List Char) : Option (JPrim × List Char) :=
  match cs with
  | '"' :: _ => (readStr cs).map fun p => (JPrim.pstr p.1, p.2)
  | _ => (readInt cs).map fun p => (JPrim.pint p.1, p.2)

/-- Read a comma-separated sequence of `"key":value` fields; the fuel bounds
the number of fields and makes the recursion structural. -/
def readFields : Nat → List Char → Option (List (String × JPrim) × List Char)
  | 0, _ => none
  | Nat.succ fuel, cs =>
    match readStr cs with
    | none => none
    | some (k, cs1) =>
      match cs1 with
      | ':' :: cs2 =>
        match readPrim cs2 with
        | none => none
        | some (v, cs3) =>
          match cs3 with
          | ',' :: cs4 =>
            match readFields fuel cs4 with
            | none => none
            | some (fs, rest) => some ((k, v) :: fs, rest)
          | _ => some ([(k, v)], cs3)
      | _ => none

/-- Model of `json.Unmarshal` into the `GoVal` universe: a total reader for
the documents `jsonMarshal` emits, failing (with a message, as the Go
library does) on anything else. -/
def jsonUnmarshal (s : String) : Except String GoVal :=
  match s.data with
  | [] => .error "unexpected end of JSON input"
  | '\x7b' :: '\x7d' :: [] => .ok (.gobj [])
  | '\x7b' :: rest =>
    match readFields (rest.length + 1) rest with
    | some (fs, ['\x7d']) => .ok (.gobj fs)
    | _ => .error "invalid character in object"
  | '"' :: _ =>
    match readStr s.data with
    | some (v, []) => .ok (.gstr v)
    | _ => .error "invalid string literal"
  | _ =>
    match readInt s.data with
    | some (n, []) => .ok (.gint n)
    | _ => .error "invalid JSON value"

/-! ## The remote store and the client state -/

/-- A value held at a Redis key: a plain string or a list (lists are kept by
the store only while non-empty, as Redis deletes a list key that empties). -/
inductive RVal where
  | str (s : String)
  | list (xs : List String)
  deriving DecidableEq

/-- The remote store: a partial map from keys to values. -/
def Store : Type := String → Option RVal

/-- Error taxonomy of the facade, following spec §7: `notFound` is the
`redis.Nil` sentinel, `wrongType` the WRONGTYPE command failure,
`useAfterClose` the wrapped library's "client is closed" rejection,
`transport` any other in-flight failure, and `serialization` a JSON
encode/decode failure (raised by the facade itself, never by the store). -/
inductive RErr where
  | notFound
  | wrongType
  | useAfterClose
  | transport (msg : String)
  | serialization (msg : String)
  deriving DecidableEq

/-- A remote command issued to the underlying client, for tracing which
facade calls contact the store at all. -/
inductive RemoteCmd where
  | set (key val : String) (expiration : Int)
  | get (key : String)
  | lpush (key : String) (vals : List String)
  | lrange (key : String) (start stop : Int)
  | lpop (key : String)
  | expire (key : String) (expiration : Int)
  | setnx (key val : String) (expiration : Int)
  | ttl (key : String)
  | incr (key : String)
  | del (key : String)
  | existsKey (key : String)
  | close
  deriving DecidableEq

/-- The state of a `Client`: the closed flag plus the remote store reachable
through its connection. -/
structure ClientState where
  closed : Bool
  store : Store

/-- Result of one facade call: the returned value or error, the state after
the call, and the remote commands issued during it. -/
structure Res (α : Type) where
  result : Except RErr α
  state : ClientState
  trace : List RemoteCmd

/-- Point update of the store. -/
def updateStore (s : Store) (k : String) (v : RVal) : Store :=
  fun k2 => if k2 = k then some v else s k2

/-- Removal of a key from the store. -/
def removeStore (s : Store) (k : String) : Store :=
  fun k2 => if k2 = k then none else s k2

/-- Run one remote command against the client: the wrapped library rejects
every command once the client is closed, otherwise the command acts on the
store. -/
def runCmd {α : Type} (st : ClientState) (c : RemoteCmd)
    (f : Store → Except RErr α × Store) : Res α :=
  if st.closed then ⟨.error .useAfterClose, st, [c]⟩
  else
    let p := f st.store
    ⟨p.1, ⟨false, p.2⟩, [c]⟩

/-! ### Store semantics of the individual commands -/

/-- SET: stores a string value, overwriting any previous value of any type. -/
def setStore (s : Store) (k v : String) : Except RErr Unit × Store :=
  (.ok (), updateStore s k (.str v))

/-- GET: `redis.Nil` on an absent key, WRONGTYPE on a list key. -/
def getStore (s : Store) (k : String) : Except RErr String × Store :=
  (match s k with
   | none => .error .notFound
   | some (.str v) => .ok v
   | some (.list _) => .error .wrongType, s)

/-- LPUSH: prepends the values one by one onto the head, so the sequence ends
up reversed in front of the old list; WRONGTYPE on a string key. -/
def lpushStore (s : Store) (k : String) (vs : List String) :
    Except RErr Unit × Store :=
  match s k with
  | some (.str _) => (.error .wrongType, s)
  | some (.list xs) => (.ok (), updateStore s k (.list (vs.reverse ++ xs)))
  | none => (.ok (), updateStore s k (.list vs.reverse))

/-- LRANGE index arithmetic: negative indices count from the end, the range
is inclusive and clamped, and an inverted range is empty. -/
def lrange (xs : List String) (start stop : Int) : List String :=
  let n : Int := xs.length
  let s0 : Int := if start < 0 then n + start else start
  let e0 : Int := if stop < 0 then n + stop else stop
  let s1 : Int := max s0 0
  let e1 : Int := min e0 (n - 1)
  if s1 > e1 then []
  else ((xs.drop s1.toNat).take (e1 - s1 + 1).toNat)

/-- LRANGE: empty on an absent key, WRONGTYPE on a string key. -/
def lrangeStore (s : Store) (k : String) (start stop : Int) :
    Except RErr (List String) × Store :=
  (match s k with
   | none => .ok []
   | some (.str _) => .error .wrongType
   | some (.list xs) => .ok (lrange xs start stop), s)

/-- LPOP: `redis.Nil` on an absent key, removes the head otherwise, deleting
the key when the list empties. -/
def lpopStore (s : Store) (k : String) : Except RErr String × Store :=
  match s k with
  | none => (.error .notFound, s)
  | some (.str _) => (.error .wrongType, s)
  | some (.list []) => (.error .notFound, removeStore s k)
  | some (.list (x :: xs)) =>
    (.ok x, if xs.length = 0 then removeStore s k else updateStore s k (.list xs))

/-- SETNX: stores only when the key is absent, reporting whether it did. -/
def setnxStore (s : Store) (k v : String) : Except RErr Bool × Store :=
  match s k with
  | some _ => (.ok false, s)
  | none => (.ok true, updateStore s k (.str v))

/-- Parse a whole string as a signed integer (Redis INCR and `strconv.Atoi`
both require the entire string to be numeric). -/
def parseIntAll (s : String) : Option Int :=
  match readInt s.data with
  | some (n, []) => some n
  | _ => none

/-- INCR: creates an absent key at 0 then adds one; fails on a non-numeric
string value; WRONGTYPE on a list key. -/
def incrStore (s : Store) (k : String) : Except RErr Int × Store :=
  match s k with
  | none => (.ok 1, updateStore s k (.str "1"))
  | some (.list _) => (.error .wrongType, s)
  | some (.str v) =>
    match parseIntAll v with
    | none => (.error (.transport "value is not an integer or out of range"), s)
    | some n => (.ok (n + 1), updateStore s k (.str (toString (n + 1))))

/-- TTL: -2 on an absent key, -1 on a key without expiry. Wall-clock expiry
is not scheduled in this model, so every present key reports no expiry. -/
def ttlStore (s : Store) (k : String) : Except RErr Int :=
  match s k with
  | none => .ok (-2)
  | some _ => .ok (-1)

/-- EXISTS: the numeric count of present keys among those given (one here). -/
def existsStore (s : Store) (k : String) : Except RErr Int :=
  .ok (match s k with | some _ => 1 | none => 0)

/-- DEL: removes the key, succeeding whether or not it was present. -/
def delStore (s : Store) (k : String) : Except RErr Unit × Store :=
  (.ok (), removeStore s k)

/-! ### The facade methods of `Redis.go`

Each definition mirrors one method of `Client` in `redis/Redis.go`. Values
typed `interface\x7b\x7d` in Go are modelled as the string the wrapped client
sends; durations are modelled as integers and not scheduled. -/

namespace Client

/-- `Client.Set`: `r.Client.Set(ctx, key, value, 0).Err()`. -/
def Set (st : ClientState) (key value : String) : Res Unit :=
  runCmd st (.set key value 0) fun s => setStore s key value

/-- `Client.SetWithExpiration`: `r.Client.Set(ctx, key, value, expiration).Err()`. -/
def SetWithExpiration (st : ClientState) (key value : String)
    (expiration : Int) : Res Unit :=
  runCmd st (.set key value expiration) fun s => setStore s key value

/-- `Client.SetList`: returns nil before contacting the client when the
input slice is empty, otherwise delegates to LPUSH. -/
def SetList (st : ClientState) (key : String) (values : List String) :
    Res Unit :=
  if values.length = 0 then ⟨.ok (), st, []⟩
  else runCmd st (.lpush key values) fun s => lpushStore s key values

/-- `Client.GetList`: `r.Client.LRange(ctx, key, start, stop).Result()`. -/
def GetList (st : ClientState) (key : String) (start stop : Int) :
    Res (List String) :=
  runCmd st (.lrange key start stop) fun s => lrangeStore s key start stop

/-- `Client.LPop`: `r.Client.LPop(ctx, key).Result()`. -/
def LPop (st : ClientState) (key : String) : Res String :=
  runCmd st (.lpop key) fun s => lpopStore s key

/-- `Client.Expire`: `r.Client.Expire(ctx, key, expiration).Err()`; the
boolean result is discarded by `.Err()`, so a missing key is not an error. -/
def Expire (st : ClientState) (key : String) (expiration : Int) : Res Unit :=
  runCmd st (.expire key expiration) fun s =>
    ((.ok (), s) : Except RErr Unit × Store)

/-- `Client.SetNX`: `r.Client.SetNX(ctx, key, value, expiration).Result()`. -/
def SetNX (st : ClientState) (key value : String) (expiration : Int) :
    Res Bool :=
  runCmd st (.setnx key value expiration) fun s => setnxStore s key value

/-- `Client.TTL`: `r.Client.TTL(ctx, key).Result()`. -/
def TTL (st : ClientState) (key : String) : Res Int :=
  runCmd st (.ttl key) fun s => (ttlStore s key, s)

/-- `Client.Get`: `r.Client.Get(ctx, key).Result()`. -/
def Get (st : ClientState) (key : String) : Res String :=
  runCmd st (.get key) fun s => getStore s key

/-- `Client.Increment`: `r.Client.Incr(ctx, key).Result()`. -/
def Increment (st : ClientState) (key : String) : Res Int :=
  runCmd st (.incr key) fun s => incrStore s key

/-- `Client.Delete`: `r.Client.Del(ctx, key).Err()`. -/
def Delete (st : ClientState) (key : String) : Res Unit :=
  runCmd st (.del key) fun s => delStore s key

/-- `Client.Exists`: fetches the numeric count and returns `count > 0`. -/
def Exists (st : ClientState) (key : String) : Res Bool :=
  let r := runCmd st (.existsKey key) fun s => (existsStore s key, s)
  match r.result with
  | .error e => ⟨.error e, r.state, r.trace⟩
  | .ok n => ⟨.ok (decide (0 < n)), r.state, r.trace⟩

/-- `Client.SetJSON`: marshals first and returns the marshal error before
issuing any command; otherwise stores the serialized bytes with SET. -/
def SetJSON (st : ClientState) (key : String) (value : GoVal)
    (expiration : Int) : Res Unit :=
  match jsonMarshal value with
  | .error e => ⟨.error (.serialization e), st, []⟩
  | .ok data => runCmd st (.set key data expiration) fun s => setStore s key data

/-- `Client.GetJSON`: fetches the bytes with GET, propagating the fetch error
unchanged, then unmarshals, propagating the decode error. -/
def GetJSON (st : ClientState) (key : String) : Res GoVal :=
  let r := runCmd st (.get key) fun s => getStore s key
  match r.result with
  | .error e => ⟨.error e, r.state, r.trace⟩
  | .ok data =>
    match jsonUnmarshal data with
    | .error e => ⟨.error (.serialization e), r.state, r.trace⟩
    | .ok v => ⟨.ok v, r.state, r.trace⟩

/-- `Client.Close`: delegates to the wrapped client's close, which fails when
already closed and otherwise marks the connection closed. -/
def Close (st : ClientState) : Res Unit :=
  if st.closed then ⟨.error .useAfterClose, st, [.close]⟩
  else ⟨.ok (), ⟨true, st.store⟩, [.close]⟩

end Client

/-! ## `Config.go` -/

/-- The process environment: `none` for an unset variable. -/
def Env : Type := String → Option String

/-- `os.Getenv`: an unset variable reads as the empty string. -/
def osGetenv (env : Env) (key : String) : String :=
  match env key with
  | none => ""
  | some v => v

/-- `getEnv` from `Config.go`: the environment value when it is non-empty,
the default otherwise. -/
def getEnv (env : Env) (key defaultValue : String) : String :=
  let value := osGetenv env key
  if value = "" then defaultValue else value

/-- `strconv.Atoi`, syntax only: the parsed value and a success flag; a
non-numeric string yields 0 with the flag down (64-bit range clamping is out
of this model's scope, no claim touches it). -/
def atoi (s : String) : Int × Bool :=
  match readInt s.data with
  | some (n, []) => (n, true)
  | _ => (0, false)

/-- The `Config` struct of `Config.go`. -/
structure Config where
  Host : String
  Port : String
  Password : String
  DB : Int
  deriving DecidableEq

/-- `NewConfig`: each field independently from the environment with its
hard-coded default; the `Atoi` error on `REDIS_DB` is discarded. -/
def NewConfig (env : Env) : Config :=
  let db := (atoi (getEnv env "REDIS_DB" "0")).1
  ⟨getEnv env "REDIS_HOST" "localhost",
   getEnv env "REDIS_PORT" "6379",
   getEnv env "REDIS_PASSWORD" "",
   db⟩

/-- `Config.GetAddr`: `c.Host + ":" + c.Port`. -/
def Config.GetAddr (c : Config) : String :=
  c.Host ++ ":" ++ c.Port

/-- A freshly connected client over an empty store, used by the concrete
witnesses. -/
def st0 : ClientState :=
  ⟨false, fun _ => none⟩

end GoRedis

/-! ## Helper lemmas -/

namespace GoRedis

/-- A closed client over an empty store, for the concrete instances. -/
def stClosed : ClientState :=
  ⟨true, fun _ => none⟩

/-- A client whose store holds the non-JSON string "x" at key "j". -/
def stJ : ClientState :=
  ⟨false, fun k => if k = "j" then some (RVal.str "x") else none⟩

/-- When `strconv.Atoi` reports failure, the value it returned is 0 (the
error branch of `atoi` always pairs 0 with the lowered flag). -/
theorem atoi_snd_false (s : String) (h : (atoi s).2 = false) : (atoi s).1 = 0 := by
  rcases hr : readInt s.data with _ | ⟨n, rest⟩
  · simp [atoi, hr]
  · cases rest with
    | nil => simp [atoi, hr] at h
    | cons c cs => simp [atoi, hr]

/-! ## The claims -/

/-- C1: for every key `k` and value `v`, on an open client in any store
state, `Set(k, v)` succeeds and a following `Get(k)` succeeds returning the
stored string `v`. -/
theorem C1_set_then_get (st : ClientState) (k v : String)
    (h : st.closed = false) :
    (Client.Set st k v).result = .ok () ∧
    (Client.Get (Client.Set st k v).state k).result = .ok v := by
  simp [Client.Set, Client.Get, runCmd, setStore, getStore, updateStore, h]

/-- Concrete instance of C1 on the fresh client. -/
theorem C1_witness :
    st0.closed = false ∧
    ((Client.Set st0 "k" "v").result = .ok () ∧
     (Client.Get (Client.Set st0 "k" "v").state "k").result = .ok "v") :=
  ⟨rfl, C1_set_then_get st0 "k" "v" rfl⟩

/-- C2: `SetList(k, [])` returns success at once, issues no remote command,
and returns the client state (store included) unchanged — this holds for
every state, the short-circuit runs before the client is consulted. -/
theorem C2_setlist_empty (st : ClientState) (k : String) :
    Client.SetList st k [] = ⟨.ok (), st, []⟩ :=
  rfl

/-- C3: on an open client with no value at `k`, `SetList(k, [a, b, c])`
succeeds and `GetList(k, 0, -1)` returns the three elements in head-pushed
order, the last-listed value first. -/
theorem C3_setlist_then_getlist (st : ClientState) (k a b c : String)
    (h : st.closed = false) (habs : st.store k = none) :
    (Client.SetList st k [a, b, c]).result = .ok () ∧
    (Client.GetList (Client.SetList st k [a, b, c]).state k 0 (-1)).result =
      .ok [c, b, a] := by
  constructor
  · simp [Client.SetList, runCmd, lpushStore, habs, h]
  · show (Client.GetList ⟨_, _⟩ k 0 (-1)).result = _
    simp [Client.SetList, Client.GetList, runCmd, lpushStore, lrangeStore,
      updateStore, lrange, habs, h]

/-- Concrete instance of C3 on the fresh client. -/
theorem C3_witness :
    st0.closed = false ∧ st0.store "k" = none ∧
    ((Client.SetList st0 "k" ["a", "b", "c"]).result = .ok () ∧
     (Client.GetList (Client.SetList st0 "k" ["a", "b", "c"]).state "k" 0
        (-1)).result = .ok ["c", "b", "a"]) :=
  ⟨rfl, rfl, C3_setlist_then_getlist st0 "k" "a" "b" "c" rfl rfl⟩

/-- C4: on an open client with `k` absent, `SetNX(k, v, ttl)` returns true
and stores `v`; a second `SetNX(k, v2, ttl2)` returns false and leaves the
stored value `v` (and the whole state) unchanged. -/
theorem C4_setnx_twice (st : ClientState) (k v v2 : String) (ttl ttl2 : Int)
    (h : st.closed = false) (habs : st.store k = none) :
    (Client.SetNX st k v ttl).result = .ok true ∧
    (Client.SetNX st k v ttl).state.store k = some (.str v) ∧
    (Client.SetNX (Client.SetNX st k v ttl).state k v2 ttl2).result =
      .ok false ∧
    (Client.SetNX (Client.SetNX st k v ttl).state k v2 ttl2).state.store k =
      some (.str v) := by
  simp [Client.SetNX, runCmd, setnxStore, updateStore, h, habs]

/-- Concrete instance of C4 on the fresh client. -/
theorem C4_witness :
    st0.closed = false ∧ st0.store "k" = none ∧
    ((Client.SetNX st0 "k" "v" 5).result = .ok true ∧
     (Client.SetNX st0 "k" "v" 5).state.store "k" = some (.str "v") ∧
     (Client.SetNX (Client.SetNX st0 "k" "v" 5).state "k" "w" 7).result =
       .ok false ∧
     (Client.SetNX (Client.SetNX st0 "k" "v" 5).state "k" "w" 7).state.store
       "k" = some (.str "v")) :=
  ⟨rfl, rfl, C4_setnx_twice st0 "k" "v" "w" 5 7 rfl rfl⟩

/-- C5: on an open client, `Get` of an absent key fails with the `notFound`
condition, which is a different error than any transport failure. -/
theorem C5_get_absent (st : ClientState) (k msg : String)
    (h : st.closed = false) (habs : st.store k = none) :
    (Client.Get st k).result = .error .notFound ∧
    RErr.notFound ≠ RErr.transport msg := by
  refine ⟨?_, by simp⟩
  simp [Client.Get, runCmd, getStore, h, habs]

/-- Concrete instance of C5 on the fresh client. -/
theorem C5_witness :
    st0.closed = false ∧ st0.store "k" = none ∧
    ((Client.Get st0 "k").result = .error .notFound ∧
     RErr.notFound ≠ RErr.transport "io timeout") :=
  ⟨rfl, rfl, C5_get_absent st0 "k" "io timeout" rfl rfl⟩

/-- C6: a marshal failure makes `SetJSON` return the serialization error
with no command issued and the state untouched; `GetJSON` returns the fetch
error (`notFound` on an absent key) and, when the fetch succeeds but the
bytes do not decode, the deserialization error — and a serialization error
differs from both the not-found and any transport condition. -/
theorem C6_json_error_paths (st1 st2 st3 : ClientState) (k1 k2 k3 : String)
    (v : GoVal) (em d eu msg : String) (ttl : Int)
    (hm : jsonMarshal v = .error em)
    (h2 : st2.closed = false) (habs : st2.store k2 = none)
    (h3 : st3.closed = false) (hstr : st3.store k3 = some (.str d))
    (hu : jsonUnmarshal d = .error eu) :
    Client.SetJSON st1 k1 v ttl = ⟨.error (.serialization em), st1, []⟩ ∧
    (Client.GetJSON st2 k2).result = .error .notFound ∧
    (Client.GetJSON st3 k3).result = .error (.serialization eu) ∧
    RErr.serialization eu ≠ RErr.notFound ∧
    RErr.serialization eu ≠ RErr.transport msg := by
  refine ⟨?_, ?_, ?_, by simp, by simp⟩
  · simp [Client.SetJSON, hm]
  · simp [Client.GetJSON, runCmd, getStore, h2, habs]
  · simp [Client.GetJSON, runCmd, getStore, h3, hstr, hu]

/-- Concrete instance of C6: a channel value rejected by the serializer, an
absent key, and the non-JSON payload "x" stored at key "j". -/
theorem C6_witness :
    jsonMarshal .gchan = .error "json: unsupported type: chan" ∧
    st0.closed = false ∧ st0.store "k" = none ∧
    stJ.closed = false ∧ stJ.store "j" = some (.str "x") ∧
    jsonUnmarshal "x" = .error "invalid JSON value" ∧
    (Client.SetJSON st0 "k" .gchan 0 =
       ⟨.error (.serialization "json: unsupported type: chan"), st0, []⟩ ∧
     (Client.GetJSON st0 "k").result = .error .notFound ∧
     (Client.GetJSON stJ "j").result =
       .error (.serialization "invalid JSON value") ∧
     RErr.serialization "invalid JSON value" ≠ RErr.notFound ∧
     RErr.serialization "invalid JSON value" ≠ RErr.transport "io timeout") :=
  ⟨rfl, rfl, rfl, rfl, rfl, rfl,
   C6_json_error_paths st0 st0 stJ "k" "k" "j" .gchan
     "json: unsupported type: chan" "x" "invalid JSON value" "io timeout" 0
     rfl rfl rfl rfl rfl rfl⟩

/-- The composite example of C7: a record with a string field and an integer
field, as in the `User` example of `Redis.go`. -/
def userVal : GoVal :=
  .gobj [("Name", .pstr "Alice"), ("Age", .pint 30)]

/-- C7: on an open client, `SetJSON` of the composite record `userVal`
succeeds and `GetJSON` of the same key succeeds with a value structurally
equal to the original. -/
theorem C7_json_roundtrip (st : ClientState) (k : String) (ttl : Int)
    (h : st.closed = false) :
    (Client.SetJSON st k userVal ttl).result = .ok () ∧
    (Client.GetJSON (Client.SetJSON st k userVal ttl).state k).result =
      .ok userVal := by
  have hm : jsonMarshal userVal = .ok "\x7b\"Name\":\"Alice\",\"Age\":30\x7d" := rfl
  have hu : jsonUnmarshal "\x7b\"Name\":\"Alice\",\"Age\":30\x7d" = .ok userVal := rfl
  simp [Client.SetJSON, Client.GetJSON, runCmd, setStore, getStore,
    updateStore, h, hm, hu]

/-- Concrete instance of C7 on the fresh client. -/
theorem C7_witness :
    st0.closed = false ∧
    ((Client.SetJSON st0 "u" userVal 0).result = .ok () ∧
     (Client.GetJSON (Client.SetJSON st0 "u" userVal 0).state "u").result =
       .ok userVal) :=
  ⟨rfl, C7_json_roundtrip st0 "u" 0 rfl⟩

/-- C8: `getEnv` prefers a non-empty environment value and falls back to the
default on an unset variable; with everything unset `NewConfig` yields host
"localhost", port "6379", empty password and database 0; a `REDIS_DB` value
rejected by `Atoi` degrades silently to database 0; and each `Config` field
is resolved independently through `getEnv` from its own variable. -/
theorem C8_config_loader (env1 env2 env3 env4 : Env) (k d v s : String)
    (h1 : env1 k = some v) (h2 : v ≠ "")
    (h3 : env2 k = none)
    (h4 : env3 "REDIS_DB" = some s) (h5 : (atoi s).2 = false) :
    getEnv env1 k d = v ∧
    getEnv env2 k d = d ∧
    NewConfig (fun _ => none) = ⟨"localhost", "6379", "", 0⟩ ∧
    (NewConfig env3).DB = 0 ∧
    NewConfig env4 =
      ⟨getEnv env4 "REDIS_HOST" "localhost",
       getEnv env4 "REDIS_PORT" "6379",
       getEnv env4 "REDIS_PASSWORD" "",
       (atoi (getEnv env4 "REDIS_DB" "0")).1⟩ := by
  refine ⟨?_, ?_, rfl, ?_, rfl⟩
  · simp [getEnv, osGetenv, h1, h2]
  · simp [getEnv, osGetenv, h3]
  · show (atoi (getEnv env3 "REDIS_DB" "0")).1 = 0
    by_cases hs : s = ""
    · subst hs
      simp [getEnv, osGetenv, h4, atoi, readInt, takeDigits, digitsVal]
    · have hg : getEnv env3 "REDIS_DB" "0" = s := by
        simp [getEnv, osGetenv, h4, hs]
      rw [hg]
      exact atoi_snd_false s h5

/-- Concrete instance of C8: `REDIS_HOST` overridden, everything unset, and
a non-numeric `REDIS_DB`. -/
theorem C8_witness :
    (fun k2 => if k2 = "REDIS_HOST" then some "redis.example" else none : Env)
        "REDIS_HOST" = some "redis.example" ∧
    ("redis.example" : String) ≠ "" ∧
    (fun _ => none : Env) "REDIS_HOST" = none ∧
    (fun k2 => if k2 = "REDIS_DB" then some "abc" else none : Env)
        "REDIS_DB" = some "abc" ∧
    (atoi "abc").2 = false ∧
    (getEnv (fun k2 => if k2 = "REDIS_HOST" then some "redis.example" else none)
        "REDIS_HOST" "localhost" = "redis.example" ∧
     getEnv (fun _ => none) "REDIS_HOST" "localhost" = "localhost" ∧
     NewConfig (fun _ => none) = ⟨"localhost", "6379", "", 0⟩ ∧
     (NewConfig (fun k2 => if k2 = "REDIS_DB" then some "abc" else none)).DB = 0 ∧
     NewConfig (fun _ => none) =
       ⟨getEnv (fun _ => none) "REDIS_HOST" "localhost",
        getEnv (fun _ => none) "REDIS_PORT" "6379",
        getEnv (fun _ => none) "REDIS_PASSWORD" "",
        (atoi (getEnv (fun _ => none) "REDIS_DB" "0")).1⟩) :=
  ⟨rfl, by decide, rfl, rfl, by decide,
   C8_config_loader
     (fun k2 => if k2 = "REDIS_HOST" then some "redis.example" else none)
     (fun _ => none)
     (fun k2 => if k2 = "REDIS_DB" then some "abc" else none)
     (fun _ => none)
     "REDIS_HOST" "localhost" "redis.example" "abc"
     rfl (by decide) rfl rfl (by decide)⟩

/-- C9 counterexample: after `Close()` the client is closed, yet
`SetList("k", [])` still returns success — its empty-input short-circuit
runs before the underlying client is contacted, so not every facade
operation fails after close. -/
theorem C9_counterexample :
    (Client.Close st0).state.closed = true ∧
    (Client.SetList (Client.Close st0).state "k" []).result = .ok () :=
  ⟨rfl, rfl⟩

/-- C9 amended: on a closed client every facade operation that issues a
remote command fails with the `useAfterClose` condition (for `SetJSON`,
whenever serialization itself succeeds), while `SetList` with an empty
sequence short-circuits and returns success without contacting the store. -/
theorem C9_closed_operations (st : ClientState) (k v : String)
    (vs : List String) (start stop ttl : Int) (g : GoVal) (d : String)
    (h : st.closed = true) (hvs : vs ≠ []) (hm : jsonMarshal g = .ok d) :
    (Client.Set st k v).result = .error .useAfterClose ∧
    (Client.SetWithExpiration st k v ttl).result = .error .useAfterClose ∧
    (Client.SetList st k vs).result = .error .useAfterClose ∧
    (Client.SetList st k []).result = .ok () ∧
    (Client.GetList st k start stop).result = .error .useAfterClose ∧
    (Client.LPop st k).result = .error .useAfterClose ∧
    (Client.Expire st k ttl).result = .error .useAfterClose ∧
    (Client.SetNX st k v ttl).result = .error .useAfterClose ∧
    (Client.TTL st k).result = .error .useAfterClose ∧
    (Client.Get st k).result = .error .useAfterClose ∧
    (Client.Increment st k).result = .error .useAfterClose ∧
    (Client.Delete st k).result = .error .useAfterClose ∧
    (Client.Exists st k).result = .error .useAfterClose ∧
    (Client.SetJSON st k g ttl).result = .error .useAfterClose ∧
    (Client.GetJSON st k).result = .error .useAfterClose := by
  simp [Client.Set, Client.SetWithExpiration, Client.SetList, Client.GetList,
    Client.LPop, Client.Expire, Client.SetNX, Client.TTL, Client.Get,
    Client.Increment, Client.Delete, Client.Exists, Client.SetJSON,
    Client.GetJSON, runCmd, h, hm, hvs]

/-- Concrete instance of the amended C9 on a closed client. -/
theorem C9_witness :
    stClosed.closed = true ∧ (["a"] : List String) ≠ [] ∧
    jsonMarshal (.gint 1) = .ok "1" ∧
    ((Client.Set stClosed "k" "v").result = .error .useAfterClose ∧
     (Client.SetWithExpiration stClosed "k" "v" 5).result =
       .error .useAfterClose ∧
     (Client.SetList stClosed "k" ["a"]).result = .error .useAfterClose ∧
     (Client.SetList stClosed "k" []).result = .ok () ∧
     (Client.GetList stClosed "k" 0 (-1)).result = .error .useAfterClose ∧
     (Client.LPop stClosed "k").result = .error .useAfterClose ∧
     (Client.Expire stClosed "k" 5).result = .error .useAfterClose ∧
     (Client.SetNX stClosed "k" "v" 5).result = .error .useAfterClose ∧
     (Client.TTL stClosed "k").result = .error .useAfterClose ∧
     (Client.Get stClosed "k").result = .error .useAfterClose ∧
     (Client.Increment stClosed "k").result = .error .useAfterClose ∧
     (Client.Delete stClosed "k").result = .error .useAfterClose ∧
     (Client.Exists stClosed "k").result = .error .useAfterClose ∧
     (Client.SetJSON stClosed "k" (.gint 1) 5).result =
       .error .useAfterClose ∧
     (Client.GetJSON stClosed "k").result = .error .useAfterClose) :=
  ⟨rfl, by decide, rfl,
   C9_closed_operations stClosed "k" "v" ["a"] 0 (-1) 5 (.gint 1) "1"
     rfl (by decide) rfl⟩

/-- C10: an environment variable explicitly set to the empty string is
indistinguishable from an unset one — `getEnv` returns the default either
way, and `NewConfig` with all four variables set to "" equals `NewConfig`
with all of them unset. -/
theorem C10_empty_equals_unset (env1 env2 : Env) (k d : String)
    (h1 : env1 k = some "") (h2 : env2 k = none) :
    getEnv env1 k d = getEnv env2 k d ∧
    getEnv env1 k d = d ∧
    NewConfig (fun _ => some "") = NewConfig (fun _ => none) := by
  refine ⟨?_, ?_, rfl⟩ <;> simp [getEnv, osGetenv, h1, h2]

/-- Concrete instance of C10: an environment holding "" for every variable
against the empty environment. -/
theorem C10_witness :
    (fun _ => some "" : Env) "REDIS_HOST" = some "" ∧
    (fun _ => none : Env) "REDIS_HOST" = none ∧
    (getEnv (fun _ => some "") "REDIS_HOST" "localhost" =
       getEnv (fun _ => none) "REDIS_HOST" "localhost" ∧
     getEnv (fun _ => some "") "REDIS_HOST" "localhost" = "localhost" ∧
     NewConfig (fun _ => some "") = NewConfig (fun _ => none)) :=
  ⟨rfl, rfl,
   C10_empty_equals_unset (fun _ => some "") (fun _ => none)
     "REDIS_HOST" "localhost" rfl rfl⟩

end GoRedis
